import Mathlib

/-!
Shallow embedding of the comment-resolution pipeline
(`app/services/comment_analyzer.py`, `app/services/document_processor.py`,
`app/main.py`).  Python strings are embedded as `List Char`; the external
completion service and vector store are parameters of the embedded
functions; `json.loads` is modelled by an executable recursive-descent
JSON parser over the fragment of JSON the program exchanges.
-/

namespace CompareComments

/-- ASCII whitespace as recognised by Python's `str.strip()`. -/
def pyIsSpace (c : Char) : Bool :=
  c = ' ' || c = '\t' || c = '\n' || c = '\r' || c = '\x0b' || c = '\x0c'

/-- Python `str.strip()`: drop leading and trailing whitespace. -/
def pyStrip (s : List Char) : List Char :=
  ((s.dropWhile pyIsSpace).reverse.dropWhile pyIsSpace).reverse

/-- Helper for `str.find`: index of the first occurrence of `c`, counting from `i`. -/
def pyFindAux (c : Char) : List Char → Nat → Option Nat
  | [], _ => none
  | x :: rest, i => if x = c then some i else pyFindAux c rest (i + 1)

/-- Python `str.find(c)` (as an `Option` instead of `-1`). -/
def pyFind (c : Char) (s : List Char) : Option Nat :=
  pyFindAux c s 0

/-- Python `str.rfind(c)` (as an `Option` instead of `-1`). -/
def pyRFind (c : Char) (s : List Char) : Option Nat :=
  match pyFind c s.reverse with
  | none => none
  | some k => some (s.length - 1 - k)

/-- Lines 81-86 of `comment_analyzer.py`: strip the raw completion output and,
when both a `\x7b` and a `\x7d` occur, keep the slice from the first `\x7b` to
the last `\x7d` inclusive; otherwise keep the stripped text unchanged. -/
def extractCandidate (s : List Char) : List Char :=
  match pyFind '\x7b' (pyStrip s), pyRFind '\x7d' (pyStrip s) with
  | some i, some k => ((pyStrip s).drop i).take (k + 1 - i)
  | _, _ => pyStrip s

/-- JSON values, the shape `json.loads` hands back. -/
inductive Json where
  | null : Json
  | bool : Bool → Json
  | num : Int → Json
  | str : List Char → Json
  | arr : List Json → Json
  | obj : List (List Char × Json) → Json
deriving Repr

/-- Python `dict.get` on the dictionary built from a parsed JSON object:
with duplicate keys the later binding wins, as in `json.loads`. -/
def objGet (m : List (List Char × Json)) (k : List Char) : Option Json :=
  match m with
  | [] => none
  | (k', v) :: rest =>
    match objGet rest k with
    | some w => some w
    | none => if k' = k then some v else none

/-- Python `dict.get(k, default)`. -/
def objGetD (m : List (List Char × Json)) (k : List Char) (d : Json) : Json :=
  (objGet m k).getD d

def skipWs : List Char → List Char
  | [] => []
  | c :: rest => if c = ' ' || c = '\t' || c = '\n' || c = '\r' then skipWs rest else c :: rest

def isDigitCh (c : Char) : Bool := '0' ≤ c && c ≤ '9'

/-- Body of a JSON string literal after the opening quote: returns the decoded
characters and the input after the closing quote. -/
def parseStringBody : Nat → List Char → Except (List Char) (List Char × List Char)
  | 0, _ => .error (("Unterminated string").toList)
  | _ + 1, [] => .error (("Unterminated string").toList)
  | fuel + 1, c :: rest =>
    if c = '"' then .ok ([], rest)
    else if c = '\\' then
      match rest with
      | [] => .error (("Unterminated string").toList)
      | e :: rest' =>
        let dec : Except (List Char) Char :=
          if e = '"' then .ok '"'
          else if e = '\\' then .ok '\\'
          else if e = '/' then .ok '/'
          else if e = 'n' then .ok '\n'
          else if e = 't' then .ok '\t'
          else if e = 'r' then .ok '\r'
          else .error (("Invalid escape").toList)
        match dec with
        | .error m => .error m
        | .ok d =>
          match parseStringBody fuel rest' with
          | .error m => .error m
          | .ok (cs, rem) => .ok (d :: cs, rem)
    else
      match parseStringBody fuel rest with
      | .error m => .error m
      | .ok (cs, rem) => .ok (c :: cs, rem)

def parseDigits : Nat → List Char → Nat → Except (List Char) (Nat × List Char)
  | 0, _, _ => .error (("Expecting value").toList)
  | _ + 1, [], acc => .ok (acc, [])
  | fuel + 1, c :: rest, acc =>
    if isDigitCh c then parseDigits fuel rest (acc * 10 + (c.toNat - '0'.toNat))
    else .ok (acc, c :: rest)

mutual

/-- Recursive-descent parser for the JSON fragment the pipeline exchanges
(strings, integers, booleans, null, arrays, objects); models `json.loads`
applied to one value. -/
def parseValue : Nat → List Char → Except (List Char) (Json × List Char)
  | 0, _ => .error (("Expecting value").toList)
  | fuel + 1, s =>
    match skipWs s with
    | [] => .error (("Expecting value").toList)
    | c :: rest =>
      if c = '"' then
        match parseStringBody (fuel + 1) rest with
        | .error m => .error m
        | .ok (cs, rem) => .ok (.str cs, rem)
      else if c = '\x7b' then
        match skipWs rest with
        | '\x7d' :: rem => .ok (.obj [], rem)
        | other => parseMembers fuel other []
      else if c = '[' then
        match skipWs rest with
        | ']' :: rem => .ok (.arr [], rem)
        | other => parseItems fuel other []
      else if c = 't' then
        match rest with
        | 'r' :: 'u' :: 'e' :: rem => .ok (.bool true, rem)
        | _ => .error (("Expecting value").toList)
      else if c = 'f' then
        match rest with
        | 'a' :: 'l' :: 's' :: 'e' :: rem => .ok (.bool false, rem)
        | _ => .error (("Expecting value").toList)
      else if c = 'n' then
        match rest with
        | 'u' :: 'l' :: 'l' :: rem => .ok (.null, rem)
        | _ => .error (("Expecting value").toList)
      else if c = '-' then
        match rest with
        | d :: _ =>
          if isDigitCh d then
            match parseDigits (fuel + 1) rest 0 with
            | .error m => .error m
            | .ok (n, rem) => .ok (.num (-(n : Int)), rem)
          else .error (("Expecting value").toList)
        | [] => .error (("Expecting value").toList)
      else if isDigitCh c then
        match parseDigits (fuel + 1) (c :: rest) 0 with
        | .error m => .error m
        | .ok (n, rem) => .ok (.num (n : Int), rem)
      else .error (("Expecting value").toList)

/-- Members of a JSON object after the opening brace (first member pending). -/
def parseMembers : Nat → List Char → List (List Char × Json) →
    Except (List Char) (Json × List Char)
  | 0, _, _ => .error (("Expecting value").toList)
  | fuel + 1, s, acc =>
    match skipWs s with
    | '"' :: rest =>
      match parseStringBody (fuel + 1) rest with
      | .error m => .error m
      | .ok (k, rem) =>
        match skipWs rem with
        | ':' :: rem' =>
          match parseValue fuel rem' with
          | .error m => .error m
          | .ok (v, rem'') =>
            match skipWs rem'' with
            | ',' :: rem''' => parseMembers fuel rem''' (acc ++ [(k, v)])
            | '\x7d' :: rem''' => .ok (.obj (acc ++ [(k, v)]), rem''')
            | _ => .error (("Expecting delimiter").toList)
        | _ => .error (("Expecting colon").toList)
    | _ => .error (("Expecting property name").toList)

/-- Items of a JSON array after the opening bracket (first item pending). -/
def parseItems : Nat → List Char → List Json → Except (List Char) (Json × List Char)
  | 0, _, _ => .error (("Expecting value").toList)
  | fuel + 1, s, acc =>
    match parseValue fuel s with
    | .error m => .error m
    | .ok (v, rem) =>
      match skipWs rem with
      | ',' :: rem' => parseItems fuel rem' (acc ++ [v])
      | ']' :: rem' => .ok (.arr (acc ++ [v]), rem')
      | _ => .error (("Expecting delimiter").toList)

end

/-- Model of `json.loads`: parse exactly one JSON value, rejecting trailing garbage. -/
def jsonParse (s : List Char) : Except (List Char) Json :=
  match parseValue (s.length + 1) s with
  | .error m => .error m
  | .ok (v, rem) =>
    match skipWs rem with
    | [] => .ok v
    | _ => .error (("Extra data").toList)

/-- A loaded comment: the `comment_id` / `comment_text` dictionary built by
`DocumentProcessor.load_comments` (the embedding vector, attached later by
`process_comments`, plays no role in the properties below). -/
structure Comment where
  comment_id : List Char
  comment_text : List Char
deriving Repr, DecidableEq

/-- The per-comment result dictionary built by `CommentAnalyzer.analyze_comment`.
The five analysis fields hold whatever JSON value `result.get` returned
(Python stores them untyped); ids and texts are the input comment's strings. -/
structure AnalysisResult where
  comment_id : List Char
  comment_text : List Char
  explanation : Json
  evidence_v1 : Json
  evidence_v2 : Json
  suggestion : Json
  status : Json
deriving Repr

/-- Embedding of `CommentAnalyzer._create_error_result` (lines 107-123): `error = none`
models Python `error=None`; `json_text` is the keyword argument
(defaulting to `""` at the empty-response call site). -/
def create_error_result (comment : Comment) (error : Option (List Char))
    (json_text : List Char) : AnalysisResult :=
  { comment_id := comment.comment_id
    comment_text := comment.comment_text
    explanation := .str (match error with
      | some e => ("Error analyzing comment: ").toList ++ e
      | none => ("Error analyzing comment (Unknown)").toList)
    evidence_v1 := .str json_text
    evidence_v2 := .str []
    suggestion := .str []
    status := .str (("error").toList) }

def keyExplanation : List Char := ("explanation").toList
def keyEvidenceV1 : List Char := ("evidence_v1").toList
def keyEvidenceV2 : List Char := ("evidence_v2").toList
def keySuggestion : List Char := ("suggestion").toList
def keyStatus : List Char := ("status").toList

def defaultExplanation : Json := .str (("No explanation provided").toList)
def defaultEvidence : Json := .str (("No evidence provided").toList)
def defaultSuggestion : Json := .str []
def defaultStatus : Json := .str (("не учтен").toList)

/-- Parsing half of `CommentAnalyzer.analyze_comment` (lines 73-105): the
completion service's raw output is the `llm_response` parameter (`[]` models a
falsy response, i.e. `None` or `""`).  An empty response short-circuits to an
error result; otherwise the brace-extracted candidate is parsed strictly; a
parsed object populates the result via `dict.get` with per-field defaults; a
parse failure — or a parsed non-object, on which Python's `result.get` raises —
lands in the `except` branch carrying the candidate text. -/
def analyze_comment (comment : Comment) (llm_response : List Char) : AnalysisResult :=
  if llm_response = [] then
    create_error_result comment none []
  else
    match jsonParse (extractCandidate llm_response) with
    | .error e => create_error_result comment (some e) (extractCandidate llm_response)
    | .ok (.obj m) =>
      { comment_id := comment.comment_id
        comment_text := comment.comment_text
        explanation := objGetD m keyExplanation defaultExplanation
        evidence_v1 := objGetD m keyEvidenceV1 defaultEvidence
        evidence_v2 := objGetD m keyEvidenceV2 defaultEvidence
        suggestion := objGetD m keySuggestion defaultSuggestion
        status := objGetD m keyStatus defaultStatus }
    | .ok _ =>
      create_error_result comment
        (some (("AttributeError").toList)) (extractCandidate llm_response)

/-- Python `f"C\x7bi+1\x7d"`: the id string for 0-based file line index `i` is `C`
followed by the decimal rendering of `i + 1`. -/
def commentId (n : Nat) : List Char := 'C' :: Nat.toDigits 10 n

/-- The loop body of `DocumentProcessor.load_comments` (lines 79-84), with `i`
the running `enumerate` counter over the file's lines. -/
def load_comments_loop (i : Nat) : List (List Char) → List Comment
  | [] => []
  | line :: rest =>
    if pyStrip line = [] then load_comments_loop (i + 1) rest
    else { comment_id := commentId (i + 1), comment_text := pyStrip line } ::
      load_comments_loop (i + 1) rest

/-- Embedding of `DocumentProcessor.load_comments` on the file's list of lines (each line as
Python's file iteration yields it; the trailing newline is immaterial because
the loop strips every line before use). -/
def load_comments (lines : List (List Char)) : List Comment :=
  load_comments_loop 0 lines

/-- Constant `settings.QDRANT_COLLECTION_V1_PREFIX` of `config.py`. -/
def v1Tag : List Char := ("doc_v1_").toList

/-- Constant `settings.QDRANT_COLLECTION_V2_PREFIX` of `config.py`. -/
def v2Tag : List Char := ("doc_v2_").toList

/-- Python `str.startswith`. -/
def leadsWith (pat s : List Char) : Bool := s.take pat.length = pat

/-- Lines 571-577 of `main.py`: for each of the v1 and v2 collection tags, in
that order, strip it from the front of the running name when present. -/
def clean_base_name (n : List Char) : List Char :=
  [v1Tag, v2Tag].foldl (fun acc t => if leadsWith t acc then acc.drop t.length else acc) n

/-- Line 579-581 of `main.py`: the v1 vector collection name. -/
def v1CollectionName (doc_base_name task_id : List Char) : List Char :=
  v1Tag ++ clean_base_name doc_base_name ++ '-' :: task_id

/-- Line 582-584 of `main.py`: the v2 vector collection name. -/
def v2CollectionName (doc_base_name task_id : List Char) : List Char :=
  v2Tag ++ clean_base_name doc_base_name ++ '-' :: task_id

/-- One call against the vector store issued by `process_documents`. -/
inductive VecOp where
  | recreate (name : List Char)
  | upsert (name : List Char) (chunkCount : Nat)
deriving Repr

/-- Terminal state of one background task: `completed` carries the aggregated
report, `errored` the recorded message; both carry the vector-store calls
issued before reaching the terminal state. -/
inductive TaskOutcome where
  | completed (report : List AnalysisResult) (ops : List VecOp)
  | errored (msg : List Char) (ops : List VecOp)
deriving Repr

def failedV1Msg (doc_v1_path : List Char) : List Char :=
  ("Failed to process document v1 or no text extracted: ").toList ++ doc_v1_path

def failedV2Msg (doc_v2_path : List Char) : List Char :=
  ("Failed to process document v2 or no text extracted: ").toList ++ doc_v2_path

def failedCommentsMsg (comments_path : List Char) : List Char :=
  ("Failed to process comments or no comments found: ").toList ++ comments_path

/-- Embedding of `process_documents` (`main.py` lines 531-637), as a function of
the outcomes of its external collaborators: `v1` / `v2` are what
`processor.process_document` returned for each version (`none` = failure,
otherwise the chunk texts), `commentLines` is the content of the comments file
(so `processor.process_comments` is `load_comments` plus embedding, which
succeeds iff `encodeOk`), and `llm` gives the completion-service response for
each comment.  A raised `Exception` is the transition into `errored` with the
exception's message; vector-store calls are recorded in order. -/
def process_documents (task_id doc_v1_path doc_v2_path comments_path doc_base_name : List Char)
    (v1 v2 : Option (List (List Char))) (commentLines : List (List Char))
    (encodeOk : Bool) (llm : Comment → List Char) : TaskOutcome :=
  match v1 with
  | none => .errored (failedV1Msg doc_v1_path) []
  | some chunks1 =>
    if chunks1 = [] then .errored (failedV1Msg doc_v1_path) []
    else
      match v2 with
      | none => .errored (failedV2Msg doc_v2_path) []
      | some chunks2 =>
        if chunks2 = [] then .errored (failedV2Msg doc_v2_path) []
        else if load_comments commentLines = [] then
          .errored (failedCommentsMsg comments_path) []
        else if !encodeOk then
          .errored (failedCommentsMsg comments_path) []
        else
          .completed
            ((load_comments commentLines).map (fun c => analyze_comment c (llm c)))
            [VecOp.recreate (v1CollectionName doc_base_name task_id),
             VecOp.upsert (v1CollectionName doc_base_name task_id) chunks1.length,
             VecOp.recreate (v2CollectionName doc_base_name task_id),
             VecOp.upsert (v2CollectionName doc_base_name task_id) chunks2.length]

/-! ### Helper lemmas about `pyFind`, `pyRFind`, `pyStrip` and the brace slice -/

theorem pyFindAux_append_of_not_mem (c : Char) (l₁ l₂ : List Char) (i : Nat)
    (h : c ∉ l₁) : pyFindAux c (l₁ ++ l₂) i = pyFindAux c l₂ (i + l₁.length) := by
  induction l₁ generalizing i with
  | nil => simp
  | cons x rest ih =>
    simp only [List.cons_append, pyFindAux, List.append_eq]
    have hx : ¬ x = c := fun hc => h (hc ▸ List.mem_cons_self x rest)
    rw [if_neg hx, ih (i + 1) (fun hm => h (List.mem_cons_of_mem _ hm))]
    congr 1
    simp only [List.length_cons]
    omega

theorem pyFindAux_cons_self (c : Char) (l : List Char) (i : Nat) :
    pyFindAux c (c :: l) i = some i := by
  simp [pyFindAux]

theorem pyFind_append_cons (c : Char) (l₁ l₂ : List Char) (h : c ∉ l₁) :
    pyFind c (l₁ ++ c :: l₂) = some l₁.length := by
  unfold pyFind
  rw [pyFindAux_append_of_not_mem c l₁ (c :: l₂) 0 h, pyFindAux_cons_self]
  simp

theorem mem_of_mem_dropWhile {p : Char → Bool} {l : List Char} {x : Char}
    (h : x ∈ l.dropWhile p) : x ∈ l :=
  List.Sublist.mem h (List.dropWhile_sublist p)

theorem dropWhile_append_cons (p : Char → Bool) (c : Char) (l₁ l₂ : List Char)
    (h : p c = false) :
    (l₁ ++ c :: l₂).dropWhile p = l₁.dropWhile p ++ c :: l₂ := by
  induction l₁ with
  | nil => simp [List.dropWhile_cons, h]
  | cons x rest ih =>
    simp only [List.cons_append, List.dropWhile_cons]
    by_cases hx : p x = true
    · simp [hx, ih]
    · simp [hx]

/-- Applying `pyStrip` to text of the form `pre ++ (\x7b :: mid ++ [\x7d]) ++ post`
only trims whitespace inside `pre` and `post`: the brace-delimited middle
survives intact. -/
theorem pyStrip_wrapped (pre mid post : List Char) :
    pyStrip (pre ++ ('\x7b' :: mid ++ ['\x7d']) ++ post) =
      pre.dropWhile pyIsSpace ++ ('\x7b' :: mid ++ ['\x7d']) ++
        (post.reverse.dropWhile pyIsSpace).reverse := by
  unfold pyStrip
  have h1 : (pre ++ ('\x7b' :: mid ++ ['\x7d']) ++ post).dropWhile pyIsSpace =
      pre.dropWhile pyIsSpace ++ '\x7b' :: (mid ++ ['\x7d'] ++ post) := by
    have := dropWhile_append_cons pyIsSpace '\x7b' pre (mid ++ ['\x7d'] ++ post) (by decide)
    simpa using this
  rw [h1]
  have h2 : (pre.dropWhile pyIsSpace ++ '\x7b' :: (mid ++ ['\x7d'] ++ post)).reverse =
      post.reverse ++ '\x7d' :: (mid.reverse ++ '\x7b' :: (pre.dropWhile pyIsSpace).reverse) := by
    simp
  rw [h2]
  have h3 : (post.reverse ++ '\x7d' ::
      (mid.reverse ++ '\x7b' :: (pre.dropWhile pyIsSpace).reverse)).dropWhile pyIsSpace =
      post.reverse.dropWhile pyIsSpace ++ '\x7d' ::
        (mid.reverse ++ '\x7b' :: (pre.dropWhile pyIsSpace).reverse) := by
    exact dropWhile_append_cons pyIsSpace '\x7d' post.reverse _ (by decide)
  rw [h3]
  simp

/-- When the first `\x7b` of the text opens the middle block and the last
`\x7d` closes it, the slice taken by `extractCandidate` is exactly the middle
block. -/
theorem extractCandidate_wrapped (pre mid post : List Char)
    (hpre : '\x7b' ∉ pre) (hpost : '\x7d' ∉ post) :
    extractCandidate (pre ++ ('\x7b' :: mid ++ ['\x7d']) ++ post) =
      '\x7b' :: mid ++ ['\x7d'] := by
  unfold extractCandidate
  rw [pyStrip_wrapped]
  set pre₁ := pre.dropWhile pyIsSpace with hpre₁
  set post₁ := (post.reverse.dropWhile pyIsSpace).reverse with hpost₁
  have hpre₁m : '\x7b' ∉ pre₁ := fun hm => hpre (mem_of_mem_dropWhile hm)
  have hpost₁m : '\x7d' ∉ post₁ := fun hm =>
    hpost (List.mem_reverse.mp (mem_of_mem_dropWhile (List.mem_reverse.mp hm)))
  have hfind : pyFind '\x7b' (pre₁ ++ ('\x7b' :: mid ++ ['\x7d']) ++ post₁) =
      some pre₁.length := by
    have := pyFind_append_cons '\x7b' pre₁ (mid ++ ['\x7d'] ++ post₁) hpre₁m
    simpa using this
  have hrev : (pre₁ ++ ('\x7b' :: mid ++ ['\x7d']) ++ post₁).reverse =
      post₁.reverse ++ '\x7d' :: (mid.reverse ++ '\x7b' :: pre₁.reverse) := by
    simp
  have hrfind : pyRFind '\x7d' (pre₁ ++ ('\x7b' :: mid ++ ['\x7d']) ++ post₁) =
      some (pre₁.length + mid.length + 1) := by
    unfold pyRFind
    rw [hrev, pyFind_append_cons '\x7d' post₁.reverse
      (mid.reverse ++ '\x7b' :: pre₁.reverse) (fun hm => hpost₁m (List.mem_reverse.mp hm))]
    show some ((pre₁ ++ ('\x7b' :: mid ++ ['\x7d']) ++ post₁).length - 1 -
        post₁.reverse.length) = some (pre₁.length + mid.length + 1)
    congr 1
    simp only [List.length_append, List.length_reverse, List.length_cons,
      List.length_nil, List.length_singleton]
    omega
  rw [hfind, hrfind]
  show ((pre₁ ++ ('\x7b' :: mid ++ ['\x7d']) ++ post₁).drop pre₁.length).take
      (pre₁.length + mid.length + 1 + 1 - pre₁.length) = '\x7b' :: mid ++ ['\x7d']
  have hdrop : (pre₁ ++ ('\x7b' :: mid ++ ['\x7d']) ++ post₁).drop pre₁.length =
      ('\x7b' :: mid ++ ['\x7d']) ++ post₁ := by
    rw [List.append_assoc]
    exact List.drop_left pre₁ _
  rw [hdrop]
  have hlen : pre₁.length + mid.length + 1 + 1 - pre₁.length =
      ('\x7b' :: mid ++ ['\x7d']).length := by
    simp only [List.length_cons, List.length_append, List.length_singleton,
      List.length_nil]
    omega
  rw [hlen, List.take_left]

/-! ### Helper lemmas about `analyze_comment` and `load_comments` -/

theorem analyze_preserves_input (c : Comment) (r : List Char) :
    (analyze_comment c r).comment_id = c.comment_id ∧
    (analyze_comment c r).comment_text = c.comment_text := by
  unfold analyze_comment
  by_cases hr : r = []
  · rw [if_pos hr]
    exact ⟨rfl, rfl⟩
  · rw [if_neg hr]
    cases hp : jsonParse (extractCandidate r) with
    | error e => exact ⟨rfl, rfl⟩
    | ok v => cases v <;> exact ⟨rfl, rfl⟩

/-! ### Claims about `CommentAnalyzer.analyze_comment` -/

/-- Claim C1: a completion response consisting of one valid JSON object wrapped
in prose — no `\x7b` anywhere before the object, no `\x7d` anywhere after it —
is brace-extracted exactly, parses, and the five analysis fields of the result
are the values found in the parsed object, not the placeholders. -/
theorem analyze_comment_extracts_wrapped_json
    (c : Comment) (pre mid post : List Char)
    (m : List (List Char × Json)) (e v1 v2 sg st : Json)
    (hpre : '\x7b' ∉ pre) (hpost : '\x7d' ∉ post)
    (hparse : jsonParse ('\x7b' :: mid ++ ['\x7d']) = .ok (.obj m))
    (he : objGet m keyExplanation = some e)
    (h1 : objGet m keyEvidenceV1 = some v1)
    (h2 : objGet m keyEvidenceV2 = some v2)
    (hs : objGet m keySuggestion = some sg)
    (ht : objGet m keyStatus = some st) :
    analyze_comment c (pre ++ ('\x7b' :: mid ++ ['\x7d']) ++ post) =
      { comment_id := c.comment_id
        comment_text := c.comment_text
        explanation := e
        evidence_v1 := v1
        evidence_v2 := v2
        suggestion := sg
        status := st } := by
  have hne : pre ++ ('\x7b' :: mid ++ ['\x7d']) ++ post ≠ [] := by simp
  unfold analyze_comment
  rw [if_neg hne, extractCandidate_wrapped pre mid post hpre hpost, hparse]
  simp [objGetD, he, h1, h2, hs, ht]

/-- Witness for C1: a concrete response with conversational framing around a
complete five-field JSON object. -/
theorem analyze_comment_extracts_wrapped_json_witness :
    analyze_comment ⟨("C1").toList, ("t").toList⟩
        (("Sure! Here is the JSON: ").toList ++
          ('\x7b' :: ("\x22explanation\x22: \x22ok\x22, \x22evidence_v1\x22: \x22a\x22, \x22evidence_v2\x22: \x22b\x22, \x22suggestion\x22: \x22\x22, \x22status\x22: \x22учтен\x22").toList ++ ['\x7d']) ++
          (" Hope this helps.").toList) =
      { comment_id := ("C1").toList
        comment_text := ("t").toList
        explanation := .str (("ok").toList)
        evidence_v1 := .str (("a").toList)
        evidence_v2 := .str (("b").toList)
        suggestion := .str []
        status := .str (("учтен").toList) } :=
  analyze_comment_extracts_wrapped_json _ _ _ _ _ _ _ _ _ _
    (by decide) (by decide) rfl rfl rfl rfl rfl rfl

/-- Claim C2: an empty (falsy) completion response, or one whose brace-extracted
candidate is not valid JSON, always yields a result whose `status` field is the
string `error`; the embedding is a total function, so no exception escapes. -/
theorem analyze_comment_error_status_on_empty_or_invalid
    (c : Comment) (r : List Char)
    (h : r = [] ∨ ∃ e, jsonParse (extractCandidate r) = .error e) :
    (analyze_comment c r).status = .str (("error").toList) := by
  unfold analyze_comment
  by_cases hr : r = []
  · rw [if_pos hr]
    rfl
  · rw [if_neg hr]
    rcases h with h | ⟨e, he⟩
    · exact absurd h hr
    · rw [he]
      rfl

/-- Witness for C2: a non-JSON response. -/
theorem analyze_comment_error_status_on_empty_or_invalid_witness :
    (analyze_comment ⟨("C1").toList, ("t").toList⟩ (("oops").toList)).status =
      .str (("error").toList) :=
  analyze_comment_error_status_on_empty_or_invalid _ _
    (Or.inr ⟨("Expecting value").toList, rfl⟩)

/-- Claim C4: when the brace-extracted candidate parses as a JSON object, every
one of the five fields missing from that object is replaced by its fixed
placeholder in the result, instead of failing. -/
theorem analyze_comment_missing_fields_get_placeholders
    (c : Comment) (r : List Char) (m : List (List Char × Json))
    (hr : r ≠ []) (hp : jsonParse (extractCandidate r) = .ok (.obj m)) :
    (objGet m keyExplanation = none →
      (analyze_comment c r).explanation = defaultExplanation) ∧
    (objGet m keyEvidenceV1 = none →
      (analyze_comment c r).evidence_v1 = defaultEvidence) ∧
    (objGet m keyEvidenceV2 = none →
      (analyze_comment c r).evidence_v2 = defaultEvidence) ∧
    (objGet m keySuggestion = none →
      (analyze_comment c r).suggestion = defaultSuggestion) ∧
    (objGet m keyStatus = none →
      (analyze_comment c r).status = defaultStatus) := by
  unfold analyze_comment
  rw [if_neg hr, hp]
  refine ⟨fun h => ?_, fun h => ?_, fun h => ?_, fun h => ?_, fun h => ?_⟩ <;>
    simp [objGetD, h]

/-- Witness for C4: the response `\x7b\x7d` parses to an object with no fields,
and every result field is the corresponding placeholder. -/
theorem analyze_comment_missing_fields_get_placeholders_witness :
    (analyze_comment ⟨("C1").toList, ("t").toList⟩
        (("\x7b\x7d").toList)).explanation = defaultExplanation ∧
    (analyze_comment ⟨("C1").toList, ("t").toList⟩
        (("\x7b\x7d").toList)).evidence_v1 = defaultEvidence ∧
    (analyze_comment ⟨("C1").toList, ("t").toList⟩
        (("\x7b\x7d").toList)).evidence_v2 = defaultEvidence ∧
    (analyze_comment ⟨("C1").toList, ("t").toList⟩
        (("\x7b\x7d").toList)).suggestion = defaultSuggestion ∧
    (analyze_comment ⟨("C1").toList, ("t").toList⟩
        (("\x7b\x7d").toList)).status = defaultStatus :=
  have h := analyze_comment_missing_fields_get_placeholders
    ⟨("C1").toList, ("t").toList⟩ (("\x7b\x7d").toList) [] (by decide) rfl
  ⟨h.1 rfl, h.2.1 rfl, h.2.2.1 rfl, h.2.2.2.1 rfl, h.2.2.2.2 rfl⟩

/-- Claim C5: on a strict-parse failure of the candidate extracted from a
non-empty response, the error-status result carries the raw candidate text in
`evidence_v1` and the parse failure in `explanation`. -/
theorem analyze_comment_parse_failure_error_result
    (c : Comment) (r : List Char) (e : List Char)
    (hr : r ≠ []) (hp : jsonParse (extractCandidate r) = .error e) :
    (analyze_comment c r).evidence_v1 = .str (extractCandidate r) ∧
    (analyze_comment c r).explanation =
      .str (("Error analyzing comment: ").toList ++ e) ∧
    (analyze_comment c r).status = .str (("error").toList) := by
  unfold analyze_comment
  rw [if_neg hr, hp]
  exact ⟨rfl, rfl, rfl⟩

/-- Witness for C5: a response with no JSON in it at all. -/
theorem analyze_comment_parse_failure_error_result_witness :
    (analyze_comment ⟨("C1").toList, ("t").toList⟩
        (("nope").toList)).evidence_v1 = .str (extractCandidate (("nope").toList)) ∧
    (analyze_comment ⟨("C1").toList, ("t").toList⟩
        (("nope").toList)).explanation =
      .str (("Error analyzing comment: ").toList ++ ("Expecting value").toList) ∧
    (analyze_comment ⟨("C1").toList, ("t").toList⟩
        (("nope").toList)).status = .str (("error").toList) :=
  analyze_comment_parse_failure_error_result
    ⟨("C1").toList, ("t").toList⟩ (("nope").toList)
    (("Expecting value").toList) (by decide) rfl

/-- Claim C9: every execution path of `analyze_comment` — success, empty
response, parse failure, non-object parse — copies the input comment's id and
text into the result unchanged. -/
theorem analyze_comment_preserves_comment_identity (c : Comment) (r : List Char) :
    (analyze_comment c r).comment_id = c.comment_id ∧
    (analyze_comment c r).comment_text = c.comment_text :=
  analyze_preserves_input c r

/-- Claim C10: the parsed `status` is adopted verbatim: a response that is a
valid JSON object whose `status` is a string outside the three allowed verdict
literals produces a result carrying exactly that string. -/
theorem analyze_comment_status_adopted_verbatim :
    (analyze_comment ⟨("C1").toList, ("t").toList⟩
        (("\x7b\x22status\x22: \x22возможно\x22\x7d").toList)).status =
      .str (("возможно").toList) ∧
    ("возможно").toList ≠ ("учтен").toList ∧
    ("возможно").toList ≠ ("не учтен").toList ∧
    ("возможно").toList ≠ ("частично учтен").toList :=
  ⟨rfl, by decide, by decide, by decide⟩

/-! ### Claims about `DocumentProcessor.load_comments` -/

theorem load_comments_loop_enumFrom (lines : List (List Char)) (i : Nat) :
    load_comments_loop i lines =
      (List.enumFrom i lines).filterMap (fun q =>
        if pyStrip q.2 = [] then none
        else some { comment_id := commentId (q.1 + 1), comment_text := pyStrip q.2 }) := by
  induction lines generalizing i with
  | nil => rfl
  | cons l rest ih =>
    simp only [load_comments_loop, List.enumFrom, List.filterMap_cons]
    by_cases h : pyStrip l = []
    · simp [h, ih]
    · simp [h, ih]

theorem load_comments_texts (lines : List (List Char)) :
    (load_comments lines).map (fun c => c.comment_text) =
      (lines.map pyStrip).filter (fun t => !t.isEmpty) := by
  show (load_comments_loop 0 lines).map _ = _
  generalize 0 = i
  induction lines generalizing i with
  | nil => rfl
  | cons l rest ih =>
    simp only [load_comments_loop, List.map_cons, List.filter_cons]
    by_cases h : pyStrip l = []
    · simp [h, ih]
    · have : (!(pyStrip l).isEmpty) = true := by
        simp [List.isEmpty_iff, h]
      simp [h, this, ih]

theorem load_comments_all_blank (lines : List (List Char))
    (h : ∀ l ∈ lines, pyStrip l = []) : load_comments lines = [] := by
  have := load_comments_texts lines
  have hf : (lines.map pyStrip).filter (fun t => !t.isEmpty) = [] := by
    rw [List.filter_eq_nil_iff]
    intro t ht
    rcases List.mem_map.mp ht with ⟨l, hl, rfl⟩
    simp [List.isEmpty_iff, h l hl]
  rw [hf] at this
  exact List.map_eq_nil_iff.mp this

/-- Counterexample to claim C3 as stated: a file whose first line is blank and
whose second line is non-blank yields a single comment whose id is `C2` (the
file line number), not `C1` (the position among non-blank lines) as the claim
requires. -/
theorem load_comments_blank_line_id_counterexample :
    load_comments [[], ("hello").toList] =
      [{ comment_id := ("C2").toList, comment_text := ("hello").toList }] ∧
    ("C2").toList ≠ ("C1").toList :=
  ⟨by decide, by decide⟩

/-- Claim C3, amended: `load_comments` skips blank lines, but the id assigned to
a retained comment is `C<n>` with `n` the 1-based line number of that comment
in the whole file, blank lines included: the retained comments are exactly the
non-blank lines, in order, each paired with the id derived from its
`enumerate` index over all lines. -/
theorem load_comments_ids_use_file_line_numbers (lines : List (List Char)) :
    load_comments lines =
      (List.enumFrom 0 lines).filterMap (fun q =>
        if pyStrip q.2 = [] then none
        else some { comment_id := commentId (q.1 + 1), comment_text := pyStrip q.2 }) ∧
    (load_comments lines).map (fun c => c.comment_text) =
      (lines.map pyStrip).filter (fun t => !t.isEmpty) :=
  ⟨load_comments_loop_enumFrom lines 0, load_comments_texts lines⟩

/-! ### Claims about `process_documents` (`main.py`) -/

/-- Claim C6: whenever a task reaches the `completed` state, its report has
exactly one entry per loaded comment, in input order, and entry `i` carries the
id and text of comment `i`. -/
theorem process_documents_completed_report_matches_comments
    (task_id doc_v1_path doc_v2_path comments_path doc_base_name : List Char)
    (v1 v2 : Option (List (List Char))) (commentLines : List (List Char))
    (encodeOk : Bool) (llm : Comment → List Char)
    (report : List AnalysisResult) (ops : List VecOp)
    (h : process_documents task_id doc_v1_path doc_v2_path comments_path doc_base_name
        v1 v2 commentLines encodeOk llm = .completed report ops) :
    report.length = (load_comments commentLines).length ∧
    report.map (fun r => r.comment_id) =
      (load_comments commentLines).map (fun c => c.comment_id) ∧
    report.map (fun r => r.comment_text) =
      (load_comments commentLines).map (fun c => c.comment_text) := by
  unfold process_documents at h
  split at h
  · exact absurd h (by simp)
  · split at h
    · exact absurd h (by simp)
    · split at h
      · exact absurd h (by simp)
      · split at h
        · exact absurd h (by simp)
        · split at h
          · exact absurd h (by simp)
          · split at h
            · exact absurd h (by simp)
            · injection h with hrep hops
              subst hrep
              refine ⟨by simp, ?_, ?_⟩
              · rw [List.map_map]
                exact List.map_congr_left
                  (fun c _ => (analyze_preserves_input c (llm c)).1)
              · rw [List.map_map]
                exact List.map_congr_left
                  (fun c _ => (analyze_preserves_input c (llm c)).2)

/-- Witness for C6: a one-comment task whose completion service answers
emptily still completes with a one-entry report matching the comment. -/
theorem process_documents_completed_report_matches_comments_witness :
    ((load_comments [("a").toList]).map
        (fun c => analyze_comment c [])).length =
      (load_comments [("a").toList]).length ∧
    ((load_comments [("a").toList]).map
        (fun c => analyze_comment c [])).map (fun r => r.comment_id) =
      (load_comments [("a").toList]).map (fun c => c.comment_id) ∧
    ((load_comments [("a").toList]).map
        (fun c => analyze_comment c [])).map (fun r => r.comment_text) =
      (load_comments [("a").toList]).map (fun c => c.comment_text) :=
  process_documents_completed_report_matches_comments
    (("t").toList) (("p1").toList) (("p2").toList) (("pc").toList) (("d").toList)
    (some [("x").toList]) (some [("y").toList]) [("a").toList]
    true (fun _ => []) _ _ rfl

/-- Claim C7: a task whose comments file has zero non-blank lines (and whose two
documents processed normally) transitions to `error` with the
`no comments found` message, and no vector-store call — recreate or upsert —
is ever issued. -/
theorem process_documents_empty_comments_errors_without_vector_ops
    (task_id doc_v1_path doc_v2_path comments_path doc_base_name : List Char)
    (chunks1 chunks2 : List (List Char)) (commentLines : List (List Char))
    (encodeOk : Bool) (llm : Comment → List Char)
    (h1 : chunks1 ≠ []) (h2 : chunks2 ≠ [])
    (hblank : ∀ l ∈ commentLines, pyStrip l = []) :
    process_documents task_id doc_v1_path doc_v2_path comments_path doc_base_name
        (some chunks1) (some chunks2) commentLines encodeOk llm =
      .errored (failedCommentsMsg comments_path) [] := by
  have hlc : load_comments commentLines = [] := load_comments_all_blank commentLines hblank
  simp only [process_documents]
  rw [if_neg h1, if_neg h2, if_pos hlc]

/-- Witness for C7: a comments file made of one empty and one all-whitespace
line. -/
theorem process_documents_empty_comments_errors_without_vector_ops_witness :
    process_documents (("t").toList) (("p1").toList) (("p2").toList)
        (("pc").toList) (("d").toList)
        (some [("x").toList]) (some [("y").toList]) [[], ("  ").toList]
        true (fun _ => []) =
      .errored (failedCommentsMsg (("pc").toList)) [] :=
  process_documents_empty_comments_errors_without_vector_ops
    (("t").toList) (("p1").toList) (("p2").toList) (("pc").toList) (("d").toList)
    [("x").toList] [("y").toList] [[], ("  ").toList] true (fun _ => [])
    (by decide) (by decide) (by decide)

/-! ### Claims about the vector collection names -/

theorem leadsWith_self_append (t m : List Char) : leadsWith t (t ++ m) = true := by
  simp only [leadsWith, decide_eq_true_eq]
  exact List.take_left t m

theorem leadsWith_v1_of_v2_append (m : List Char) :
    leadsWith v1Tag (v2Tag ++ m) = false := by
  simp only [leadsWith, decide_eq_false_iff_not]
  rw [List.take_left' (show v2Tag.length = v1Tag.length from rfl)]
  decide

/-- Counterexample to claim C8 as stated: the base name `doc_v1_doc_v1_y` starts
with a version tag, yet its v1 collection name starts with the v1 tag twice —
the cleaning loop strips only one leading occurrence of each tag. -/
theorem collection_names_double_tag_counterexample :
    leadsWith v1Tag (("doc_v1_doc_v1_y").toList) = true ∧
    v1CollectionName (("doc_v1_doc_v1_y").toList) (("t42").toList) =
      ("doc_v1_doc_v1_y-t42").toList ∧
    leadsWith (v1Tag ++ v1Tag)
      (v1CollectionName (("doc_v1_doc_v1_y").toList) (("t42").toList)) = true :=
  ⟨by decide, by decide, by decide⟩

/-- Claim C8, amended: collection names are `<version-tag><clean>-<task-id>`;
cleaning strips one leading v1 tag when present and then one leading v2 tag
from what remains.  Hence a base name starting with one v2 tag, or with one v1
tag whose remainder is not v2-tagged, is never double-prefixed — but stacked
tags survive, as the counterexample shows. -/
theorem collection_names_strip_single_tag
    (n m m' task_id : List Char) (hm2 : leadsWith v2Tag m = false) :
    (v1CollectionName n task_id = v1Tag ++ clean_base_name n ++ '-' :: task_id ∧
     v2CollectionName n task_id = v2Tag ++ clean_base_name n ++ '-' :: task_id) ∧
    clean_base_name (v1Tag ++ m) = m ∧
    clean_base_name (v2Tag ++ m') = m' := by
  refine ⟨⟨rfl, rfl⟩, ?_, ?_⟩
  · simp [clean_base_name, leadsWith_self_append, hm2, List.drop_left]
  · simp [clean_base_name, leadsWith_v1_of_v2_append, leadsWith_self_append,
      List.drop_left]

/-- Witness for C8 (amended): a plain base name under each single tag. -/
theorem collection_names_strip_single_tag_witness :
    (v1CollectionName (("doc_v1_rep").toList) (("t1").toList) =
        v1Tag ++ clean_base_name (("doc_v1_rep").toList) ++ '-' :: ("t1").toList ∧
     v2CollectionName (("doc_v1_rep").toList) (("t1").toList) =
        v2Tag ++ clean_base_name (("doc_v1_rep").toList) ++ '-' :: ("t1").toList) ∧
    clean_base_name (v1Tag ++ ("rep").toList) = ("rep").toList ∧
    clean_base_name (v2Tag ++ ("doc").toList) = ("doc").toList :=
  collection_names_strip_single_tag (("doc_v1_rep").toList) (("rep").toList)
    (("doc").toList) (("t1").toList) (by decide)

end CompareComments
